import Mathlib

/-!
Verification of the prayer-times alert engine.

A shallow embedding of the alert scheduling core of `src/main.py`
(`TimeUtils.convert_12h_to_24h`, `PrayerTimesDataManager`,
`AlertManager.check_alerts` / `show_alert` / `hide_alert` / `test_alert`,
the per-second `PrayerTimesUI.update_time` tick, and the CSV ingestion
validation of `PrayerTimesUI.upload_csv`), together with theorems settling
the specification claims about it.

Strings are modelled as Lean `String`s processed through their underlying
character lists, so that every definition is executable by the kernel.
-/

namespace WaktuSolat

/-! ## Character and string utilities (Python `str.strip`, `str.split`) -/

/-- ASCII whitespace as recognised by Python's `str.strip()` and `\s` in
`re` (restricted to the ASCII range, the only characters that occur in the
data): space, tab, newline, carriage return, vertical tab, form feed. -/
def isWsChar (c : Char) : Bool :=
  c = ' ' || c = '\t' || c = '\n' || c = '\r' || c = '\x0b' || c = '\x0c'

/-- Remove trailing characters satisfying `isWsChar` (structural recursion). -/
def stripTrailing : List Char → List Char
  | [] => []
  | c :: t =>
    match stripTrailing t with
    | [] => if isWsChar c then [] else [c]
    | r => c :: r

/-- Python `str.strip()` on the character list: drop leading and trailing
whitespace. -/
def pyStripList (l : List Char) : List Char :=
  stripTrailing (l.dropWhile isWsChar)

/-- Python `str.strip()`. -/
def pyStrip (s : String) : String := ⟨pyStripList s.data⟩

/-- Python `str.split(sep)` for a single-character separator. -/
def splitChar (sep : Char) : List Char → List (List Char)
  | [] => [[]]
  | c :: rest =>
    let r := splitChar sep rest
    if c = sep then [] :: r
    else
      match r with
      | [] => [[c]]
      | g :: gs => (c :: g) :: gs

/-- Is `c` an ASCII digit. -/
def isDigitCh (c : Char) : Bool := '0' ≤ c && c ≤ '9'

/-- Numeric value of an ASCII digit character. -/
def dval (c : Char) : Nat := c.toNat - 48

/-- Digit character for `n < 10`. -/
def digitCh : Nat → Char
  | 0 => '0' | 1 => '1' | 2 => '2' | 3 => '3' | 4 => '4'
  | 5 => '5' | 6 => '6' | 7 => '7' | 8 => '8' | _ => '9'

/-- Python `int` on a string of decimal digits (as used on the pieces of
`time_24h.split(':')`, which are always digit strings here). -/
def digitsToNat (l : List Char) : Nat :=
  l.foldl (fun acc c => acc * 10 + dval c) 0

/-! ## `TimeUtils.convert_12h_to_24h` (src/main.py lines 566-583)

The Python code calls `datetime.datetime.strptime(s, "%I:%M %p")` and, on
failure, `strptime(s, "%H:%M")`.  CPython's `_strptime` compiles these
formats to the regexes (matched case-insensitively, whole string):

* `%I` = `1[0-2]|0[1-9]|[1-9]`,
* `%H` = `2[0-3]|[0-1]\d|\d`,
* `%M` = `[0-5]\d|\d`,
* `%p` = `AM|PM` (case-insensitive), and a whitespace run in the format
  matches one or more whitespace characters.

The ordered alternations are translated as committed choice, which agrees
with the backtracking regex semantics here: whenever a two-digit
alternative matches, the following literal (`:`, whitespace or
end-of-input) cannot match a digit, so no backtracking into the shorter
alternative can succeed. -/

/-- Directive `%I`: hour of a 12-hour time, `1..12`, one or two digits. Returns the
value and the remaining input. -/
def parseHour12 : List Char → Option (Nat × List Char)
  | '1' :: c :: rest =>
    if '0' ≤ c && c ≤ '2' then some (10 + dval c, rest)
    else some (1, c :: rest)
  | '0' :: c :: rest =>
    if '1' ≤ c && c ≤ '9' then some (dval c, rest) else none
  | c :: rest =>
    if '1' ≤ c && c ≤ '9' then some (dval c, rest) else none
  | [] => none

/-- Directive `%H`: hour of a 24-hour time, `0..23`, one or two digits. -/
def parseHour24 : List Char → Option (Nat × List Char)
  | '2' :: c :: rest =>
    if '0' ≤ c && c ≤ '3' then some (20 + dval c, rest)
    else some (2, c :: rest)
  | c0 :: c1 :: rest =>
    if (c0 = '0' || c0 = '1') && isDigitCh c1 then
      some (10 * dval c0 + dval c1, rest)
    else if isDigitCh c0 then some (dval c0, c1 :: rest)
    else none
  | [c] => if isDigitCh c then some (dval c, []) else none
  | [] => none

/-- Directive `%M`: minute, `0..59`, one or two digits. -/
def parseMinute : List Char → Option (Nat × List Char)
  | c0 :: c1 :: rest =>
    if ('0' ≤ c0 && c0 ≤ '5') && isDigitCh c1 then
      some (10 * dval c0 + dval c1, rest)
    else if isDigitCh c0 then some (dval c0, c1 :: rest)
    else none
  | [c] => if isDigitCh c then some (dval c, []) else none
  | [] => none

/-- A whitespace run in the format: one or more whitespace characters. -/
def parseWs1 : List Char → Option (List Char)
  | c :: rest => if isWsChar c then some (rest.dropWhile isWsChar) else none
  | [] => none

/-- Directive `%p`: `AM`/`PM`, case-insensitive. `false` = AM, `true` = PM. -/
def parseAmPm : List Char → Option (Bool × List Char)
  | a :: b :: rest =>
    if (a = 'A' || a = 'a') && (b = 'M' || b = 'm') then some (false, rest)
    else if (a = 'P' || a = 'p') && (b = 'M' || b = 'm') then some (true, rest)
    else none
  | _ => none

/-- Embeds `strptime(s, "%I:%M %p")`: 12-hour time with an AM/PM marker, whole
input consumed. Returns `(hour12, minute, isPM)`. -/
def parse12 (l : List Char) : Option (Nat × Nat × Bool) :=
  match parseHour12 l with
  | none => none
  | some (h, r1) =>
    match r1 with
    | ':' :: r2 =>
      match parseMinute r2 with
      | none => none
      | some (m, r3) =>
        match parseWs1 r3 with
        | none => none
        | some r4 =>
          match parseAmPm r4 with
          | none => none
          | some (ap, r5) => if r5 = [] then some (h, m, ap) else none
    | _ => none

/-- Embeds `strptime(s, "%H:%M")`: 24-hour time, whole input consumed. -/
def parse24 (l : List Char) : Option (Nat × Nat) :=
  match parseHour24 l with
  | none => none
  | some (h, r1) =>
    match r1 with
    | ':' :: r2 =>
      match parseMinute r2 with
      | none => none
      | some (m, r3) => if r3 = [] then some (h, m) else none
    | _ => none

/-- CPython `_strptime`'s 12-hour → 24-hour conversion: with a PM marker,
hours other than 12 gain 12; with an AM marker, hour 12 becomes 0. -/
def strptimeHour24 (h12 : Nat) (pm : Bool) : Nat :=
  if pm then (if h12 = 12 then 12 else h12 + 12)
  else (if h12 = 12 then 0 else h12)

/-- Zero-padded two-digit rendering, as `strftime("%H")`/`("%M")`. -/
def fmt2 (n : Nat) : List Char := [digitCh (n / 10), digitCh (n % 10)]

/-- Embeds `strftime("%H:%M")`. -/
def fmtHM (h m : Nat) : String := ⟨fmt2 h ++ ':' :: fmt2 m⟩

/-- Embeds `TimeUtils.convert_12h_to_24h` (src/main.py lines 566-583): the empty
string is falsy and yields `None`; otherwise the stripped input is parsed
first as `"%I:%M %p"` (rendered back through `strftime("%H:%M")`) and then
as `"%H:%M"` (returning the stripped input itself); on double failure the
result is `None`. -/
def convert_12h_to_24h (s : String) : Option String :=
  if s = "" then none
  else
    let t := pyStrip s
    match parse12 t.data with
    | some (h, m, ap) => some (fmtHM (strptimeHour24 h ap) m)
    | none =>
      match parse24 t.data with
      | some _ => some t
      | none => none

/-- Embeds `map(int, time_24h.split(':'))` as used in `check_alerts`: split on the
colon and read both pieces as decimal numbers (the argument is always an
output of `convert_12h_to_24h`, which contains exactly one colon). -/
def splitHM (s : String) : Nat × Nat :=
  match splitChar ':' s.data with
  | [a, b] => (digitsToNat a, digitsToNat b)
  | _ => (0, 0)

/-! ## Schedule rows and the data manager (src/main.py lines 434-560) -/

/-- A schedule row: a CSV `DictReader` row, i.e. an association list from
column names to cell values (keys unique, first match wins). -/
abbrev Row := List (String × String)

/-- Python `key in row` (dict membership). -/
def rowHasKey (r : Row) (k : String) : Bool :=
  (r.find? (fun p => p.1 = k)).isSome

/-- Python `row.get(key)` (dict `.get`, `None` when absent). -/
def rowGet? (r : Row) (k : String) : Option String :=
  (r.find? (fun p => p.1 = k)).map (fun p => p.2)

/-- Python `row.get(key, default)`. -/
def rowGetD (r : Row) (k d : String) : String :=
  (rowGet? r k).getD d

/-- Embeds `PrayerTimesDataManager._create_fallback_data` (lines 442-461): the
single synthetic placeholder row for the given current date, with every
prayer-time field `"N/A"`. -/
def createFallbackData (todayStr hijri dayName : String) : Row :=
  [("Tarikh Miladi", todayStr), ("Tarikh Hijri", hijri), ("Hari", dayName),
   ("Imsak", "N/A"), ("Subuh", "N/A"), ("Syuruk", "N/A"), ("Zohor", "N/A"),
   ("Asar", "N/A"), ("Maghrib", "N/A"), ("Isyak", "N/A")]

/-- The in-memory state of `PrayerTimesDataManager`: the loaded schedule
and the fallback placeholder row built at startup
(`fallback_prayer_times[0]`). -/
structure DataM where
  prayer_times : List Row
  fallback : Row
deriving DecidableEq

/-- Embeds `PrayerTimesDataManager.get_prayer_times_for_date` (lines 548-560):
linear scan on the `"Tarikh Miladi"` column; if no row matches and the
queried date is the current date, the fallback placeholder is returned;
otherwise `None`.  `nowDate` is `datetime.datetime.now().strftime("%d/%m/%Y")`
observed inside the function. -/
def get_prayer_times_for_date (dm : DataM) (nowDate dateStr : String) : Option Row :=
  match dm.prayer_times.find? (fun r => rowGet? r "Tarikh Miladi" == some dateStr) with
  | some r => some r
  | none => if dateStr = nowDate then some dm.fallback else none

/-! ## Alert session state (`AlertManager` + `IntegratedAlert`) -/

/-- The live alert state: `AlertManager.alert_active`,
`AlertManager.current_alert`, `AlertManager.triggered_alerts` (the set of
per-day dedupe keys, modelled as a list of keys), plus the two
`IntegratedAlert` fields that drive expiry: whether the alert frame exists
and the countdown `remaining_time`. -/
structure EngineState where
  alert_active : Bool
  current_alert : Option String
  triggered : List String
  frame : Bool
  remaining : Int
deriving DecidableEq

/-- Embeds `AlertManager.show_alert` duration resolution (lines 1047-1067)
composed with `IntegratedAlert.show_alert` (line 669): `None` becomes 180 s
for azan, 600 s for iqamah, 30 s otherwise, and a `prayer_time` alert is
then overridden to 900 s by the integrated alert. -/
def resolveDuration (atype : String) (dur : Option Int) : Int :=
  let d0 := match dur with
    | some v => v
    | none => if atype = "azan" then 180 else if atype = "iqamah" then 600 else 30
  if atype = "prayer_time" then 900 else d0

/-- State effect of `AlertManager.show_alert`: the alert becomes active and
the integrated alert frame is (re)created with the resolved countdown. -/
def showAlertM (s : EngineState) (atype : String) (dur : Option Int) : EngineState :=
  { s with alert_active := true, frame := true, remaining := resolveDuration atype dur }

/-- Embeds `AlertManager.hide_alert` (lines 1073-1078): tear down the integrated
alert frame, clear `alert_active` and `current_alert`. -/
def hideAlertM (s : EngineState) : EngineState :=
  { s with alert_active := false, current_alert := none, frame := false }

/-- Embeds `AlertManager.test_alert` (lines 1080-1089): force-show an alert of the
given kind (no dedupe key involved). -/
def test_alert (s : EngineState) (atype : String) : EngineState :=
  if atype = "azan" then showAlertM s "azan" none
  else if atype = "iqamah" then showAlertM s "iqamah" none
  else if atype = "prayer_time" then showAlertM s "prayer_time" none
  else showAlertM s "reminder" none

/-! ## `AlertManager.check_alerts` (src/main.py lines 922-1044) -/

/-- The wall clock sampled once per tick (`current_datetime`'s time of
day; the date part is passed separately as a string). -/
structure Clock where
  h : Nat
  m : Nat
  s : Nat
deriving DecidableEq

/-- Seconds since local midnight. -/
def nowSecs (c : Clock) : Nat := c.h * 3600 + c.m * 60 + c.s

/-- Computes `diff_seconds` for one prayer: convert the stored time text
(`today_prayers.get(p, "")`), split it into hour and minute, and subtract
the current instant from the prayer instant (both on the same calendar
day).  `none` when the stored text is absent, empty or unparseable. -/
def prayerDiff? (row : Row) (c : Clock) (p : String) : Option Int :=
  match convert_12h_to_24h (rowGetD row p "") with
  | none => none
  | some t24 =>
    let hm := splitHM t24
    some ((hm.1 * 3600 + hm.2 * 60 : Int) - (nowSecs c : Int))

/-- Embeds `prayer_names` (line 936): the fixed iteration order. -/
def prayerNames : List String :=
  ["Imsak", "Subuh", "Syuruk", "Zohor", "Asar", "Maghrib", "Isyak"]

/-- Embeds `azan_prayer_names` (line 937). -/
def azanPrayerNames : List String :=
  ["Subuh", "Zohor", "Asar", "Maghrib", "Isyak"]

/-- A keyed alert raise (every branch except Imsak's): if the per-day
dedupe key was already fired today the window match merely returns;
otherwise the key is marked, the alert becomes the current one and is
shown.  The second component reports the key raised this tick, if any. -/
def raiseAlert (s : EngineState) (key atype : String) (dur : Option Int) :
    EngineState × Option String :=
  if s.triggered.contains key then (s, none)
  else
    (showAlertM
      { s with triggered := key :: s.triggered, alert_active := true,
               current_alert := some key } atype dur, some key)

/-- The `for prayer in prayer_names` loop body of `check_alerts`
(lines 961-1044), one prayer at a time: skip the prayer when its field is
absent or unparseable, otherwise test the windows of its class against
`diff_seconds` and return on the first match.  The Imsak branch
(lines 985-991) raises without consulting or marking the dedupe set,
exactly as in the source. -/
def evalLoop (row : Row) (c : Clock) (s : EngineState) :
    List String → EngineState × Option String
  | [] => (s, none)
  | p :: rest =>
    if rowHasKey row p then
      match prayerDiff? row c p with
      | none => evalLoop row c s rest
      | some diff =>
        if p = "Syuruk" then
          if 270 ≤ diff ∧ diff ≤ 330 then
            raiseAlert s (p ++ "_5min") "reminder" (some (28 * 60))
          else evalLoop row c s rest
        else if p = "Imsak" then
          if 270 ≤ diff ∧ diff ≤ 330 then
            (showAlertM
              { s with alert_active := true, current_alert := some (p ++ "_5min") }
              "reminder" none, some (p ++ "_5min"))
          else evalLoop row c s rest
        else if azanPrayerNames.contains p then
          if 570 ≤ diff ∧ diff ≤ 630 then
            raiseAlert s (p ++ "_10min") "reminder" none
          else if 270 ≤ diff ∧ diff ≤ 330 then
            raiseAlert s (p ++ "_5min") "reminder" none
          else if -1 ≤ diff ∧ diff ≤ 1 then
            raiseAlert s (p ++ "_azan") "azan" none
          else if -300 ≤ diff ∧ diff ≤ -240 then
            raiseAlert s (p ++ "_iqamah") "iqamah" none
          else if -1200 ≤ diff ∧ diff ≤ -1140 then
            raiseAlert s (p ++ "_prayer_time") "prayer_time" none
          else evalLoop row c s rest
        else evalLoop row c s rest
    else evalLoop row c s rest

/-- Python truthiness of `self.current_alert` (`None` and `""` falsy). -/
def optStrTruthy : Option String → Bool
  | none => false
  | some s => s ≠ ""

/-- Embeds `check_alerts` after today's row has been resolved (lines 939-1044):
the active-alert override block followed by the evaluation loop.  While an
alert is active: split its key on `'_'`; with fewer than two parts return;
otherwise look up the active alert's prayer in today's row — if its
`diff_seconds` is within ±30 s and the active kind is not azan, the active
alert is force-dismissed and evaluation proceeds, if the lookup or parse
fails evaluation also proceeds (with the alert still active), and in every
other case the tick returns unchanged. -/
def checkAlertsRow (row : Row) (c : Clock) (s : EngineState) :
    EngineState × Option String :=
  if s.alert_active && optStrTruthy s.current_alert then
    let ca := s.current_alert.getD ""
    let parts := splitChar '_' ca.data
    if 2 ≤ parts.length then
      let current_prayer : String := ⟨parts.getD 0 []⟩
      let ctype : List Char := parts.getD 1 []
      match prayerDiff? row c current_prayer with
      | some diff =>
        if -30 ≤ diff ∧ diff ≤ 30 ∧ ctype ≠ "azan".data then
          evalLoop row c (hideAlertM s) prayerNames
        else (s, none)
      | none => evalLoop row c s prayerNames
    else (s, none)
  else evalLoop row c s prayerNames

/-- Embeds `AlertManager.check_alerts` (lines 923-934): empty schedule returns
immediately; then today's row is resolved through the data manager (with
its fallback) and, when present and non-empty, evaluated. -/
def checkAlerts (dm : DataM) (nowDate : String) (c : Clock) (s : EngineState) :
    EngineState × Option String :=
  if dm.prayer_times.isEmpty then (s, none)
  else
    match get_prayer_times_for_date dm nowDate nowDate with
    | none => (s, none)
    | some row => if row.isEmpty then (s, none) else checkAlertsRow row c s

/-! ## The per-second tick (src/main.py lines 2145-2170 and 850-876) -/

/-- Embeds `IntegratedAlert.update_countdown` (lines 850-876), state effect per
second while an alert frame exists: decrement `remaining_time` and tear
the frame down when it reaches zero. -/
def integratedTick (s : EngineState) : EngineState :=
  if s.frame then
    let r := s.remaining - 1
    if r ≤ 0 then { s with remaining := r, frame := false }
    else { s with remaining := r }
  else s

/-- The alert-related tail of `PrayerTimesUI.update_time`
(lines 2161-2170): run `check_alerts`; if the manager still believes an
alert is active but its frame is gone (countdown expiry), reset
`alert_active` and `current_alert`; finally, when the observed wall-clock
time is exactly `00:00:00`, clear the per-day dedupe set. -/
def updateTimeAlerts (dm : DataM) (nowDate : String) (c : Clock) (s : EngineState) :
    EngineState × Option String :=
  let r1 := checkAlerts dm nowDate c s
  let s2 := if r1.1.alert_active && !r1.1.frame then
      { r1.1 with alert_active := false, current_alert := none }
    else r1.1
  let s3 := if c.h = 0 ∧ c.m = 0 ∧ c.s = 0 then { s2 with triggered := [] } else s2
  (s3, r1.2)

/-- One simulated second: the integrated alert's countdown timer followed
by the UI tick. -/
def tick (dm : DataM) (nowDate : String) (c : Clock) (s : EngineState) :
    EngineState × Option String :=
  updateTimeAlerts dm nowDate c (integratedTick s)

/-- Time of day from a second count `t < 86400`. -/
def clockOfSecs (t : Nat) : Clock := ⟨t / 3600, t % 3600 / 60, t % 60⟩

/-- Run `n` consecutive one-second ticks starting at second-of-day `t0`,
collecting the keys of the alerts raised, in order. -/
def sweepAux (dm : DataM) (nowDate : String) :
    Nat → Nat → EngineState → List String → EngineState × List String
  | _, 0, s, acc => (s, acc)
  | t, n + 1, s, acc =>
    let r := tick dm nowDate (clockOfSecs t) s
    sweepAux dm nowDate (t + 1) n r.1
      (match r.2 with | some e => acc ++ [e] | none => acc)

/-- Simulated clock sweep: `n` ticks from second-of-day `t0`. -/
def sweep (dm : DataM) (nowDate : String) (t0 n : Nat) (s : EngineState) :
    EngineState × List String :=
  sweepAux dm nowDate t0 n s []

/-! ## CSV ingestion (`PrayerTimesUI.upload_csv`, lines 2073-2121) -/

/-- The required columns (lines 2095-2098). -/
def requiredColumns : List String :=
  ["Tarikh Miladi", "Tarikh Hijri", "Hari",
   "Imsak", "Subuh", "Syuruk", "Zohor", "Asar", "Maghrib", "Isyak"]

/-- Per-row validation (lines 2101-2103): the first required column missing
from the row, if any. -/
def firstMissingColumn (r : Row) : Option String :=
  requiredColumns.find? (fun col => !(rowHasKey r col))

/-- The ingestion loop of `upload_csv`: accumulate rows, validating each;
the first missing required column raises `KeyError`, rejecting the whole
ingestion with a message naming that column. -/
def uploadCSVRows : List Row → Except String (List Row)
  | [] => Except.ok []
  | r :: rest =>
    match firstMissingColumn r with
    | some col => Except.error ("Missing required column: " ++ col)
    | none =>
      match uploadCSVRows rest with
      | Except.error e => Except.error e
      | Except.ok acc => Except.ok (r :: acc)

/-- The in-memory schedule after an `upload_csv` call: on a validation
error the data manager is never touched; on success
`save_prayer_times(rows)` installs the new rows. -/
def uploadResultTimes (rows : List Row) (pt : List Row) : List Row :=
  match uploadCSVRows rows with
  | Except.error _ => pt
  | Except.ok newRows => newRows

/-! ## Spec-side definitions and concrete instances used by the claims -/

/-- The canonical rendering of a 12-hour time with an AM/PM marker,
zero-padded, e.g. `render12 1 0 true = "01:00 PM"`. -/
def render12 (h m : Nat) (pm : Bool) : String :=
  ⟨fmt2 h ++ ':' :: fmt2 m ++ ' ' :: (if pm then ['P', 'M'] else ['A', 'M'])⟩

/-- The manual 12-hour → 24-hour hour computation, written from the spec:
a PM hour other than 12 gains twelve, 12 AM is midnight, everything else
is unchanged. -/
def spec24 (h : Nat) (pm : Bool) : Nat :=
  if pm then (if h = 12 then 12 else h + 12) else (if h = 12 then 0 else h)

/-- The idle engine state (fresh day, no alert, nothing fired). -/
def idleState : EngineState := ⟨false, none, [], false, 0⟩

/-- A schedule row with only an Imsak time. -/
def rowImsak : Row := [("Tarikh Miladi", "01/01/2025"), ("Imsak", "05:50")]

/-- A data manager holding just `rowImsak`. -/
def dmImsak : DataM := ⟨[rowImsak], createFallbackData "01/01/2025" "X" "Y"⟩

/-- A schedule row with only a Zohor time of 12:00. -/
def rowZohor : Row := [("Tarikh Miladi", "01/01/2025"), ("Zohor", "12:00")]

/-- Computes `diff_seconds` for `rowZohor`'s Zohor prayer: noon minus the current
instant. -/
def diffZohor (c : Clock) : Int := (43200 : Int) - (nowSecs c : Int)

/-- A schedule row with only a Syuruk time of 07:10. -/
def rowSyuruk : Row := [("Tarikh Miladi", "01/01/2025"), ("Syuruk", "07:10")]

/-- A state in which the 28-minute Syuruk reminder is active and its
dedupe key fired. -/
def activeSyurukState : EngineState :=
  ⟨true, some "Syuruk_5min", ["Syuruk_5min"], true, 1400⟩

/-- A schedule row whose Subuh time is malformed and whose Zohor time is a
valid 12-hour string. -/
def rowMalformed : Row :=
  [("Tarikh Miladi", "01/01/2025"), ("Subuh", "25:99"), ("Zohor", "01:00 PM")]

/-- The alert-kind suffixes that occur in dedupe keys. -/
def kindSuffixes : List String := ["10min", "5min", "azan", "iqamah", "prayer_time"]

/-- A data manager with an empty schedule. -/
def dmEmpty : DataM := ⟨[], createFallbackData "02/01/2025" "1 Rejab" "Khamis"⟩

/-- An ingestion batch whose single row is missing required columns. -/
def rowsBad : List Row := [[("Tarikh Miladi", "01/01/2025")]]

/-- An existing in-memory schedule, used to observe that failed ingestion
leaves it untouched. -/
def ptExisting : List Row := [[("Tarikh Miladi", "31/12/2024")]]

/-! ## Derived notions and helper lemmas -/

/-- Whether prayer `p`'s branch of the evaluation loop matches a window at
clock `c` for the given row (in which case the loop stops at `p`,
regardless of the dedupe set). -/
def prayerWindowMatch (row : Row) (c : Clock) (p : String) : Bool :=
  rowHasKey row p &&
    match prayerDiff? row c p with
    | none => false
    | some diff =>
      if p = "Syuruk" then decide (270 ≤ diff ∧ diff ≤ 330)
      else if p = "Imsak" then decide (270 ≤ diff ∧ diff ≤ 330)
      else if azanPrayerNames.contains p then
        decide (570 ≤ diff ∧ diff ≤ 630) || decide (270 ≤ diff ∧ diff ≤ 330) ||
        decide (-1 ≤ diff ∧ diff ≤ 1) || decide (-300 ≤ diff ∧ diff ≤ -240) ||
        decide (-1200 ≤ diff ∧ diff ≤ -1140)
      else false

theorem evalLoop_skip (row : Row) (c : Clock) (s : EngineState) (p : String)
    (rest : List String) (h : prayerWindowMatch row c p = false) :
    evalLoop row c s (p :: rest) = evalLoop row c s rest := by
  rw [evalLoop]
  by_cases hk : rowHasKey row p
  · rw [if_pos hk]
    cases hd : prayerDiff? row c p with
    | none => rfl
    | some diff =>
      dsimp only
      rw [prayerWindowMatch, hk, hd] at h
      simp only [Bool.true_and] at h
      by_cases h1 : p = "Syuruk"
      · rw [if_pos h1, if_neg (by simpa [h1] using h)]
      · rw [if_neg h1]
        by_cases h2 : p = "Imsak"
        · rw [if_pos h2, if_neg (by simpa [h1, h2] using h)]
        · rw [if_neg h2]
          by_cases h3 : azanPrayerNames.contains p
          · simp only [h1, h2, h3, if_false, if_true, Bool.or_eq_false_iff,
              decide_eq_false_iff_not] at h
            rw [if_pos h3, if_neg h.1.1.1.1, if_neg h.1.1.1.2, if_neg h.1.1.2,
              if_neg h.1.2, if_neg h.2]
          · rw [if_neg h3]
  · rw [if_neg hk]

theorem evalLoop_hit (row : Row) (c : Clock) (s : EngineState) (p : String)
    (rest : List String) (h : prayerWindowMatch row c p = true) :
    evalLoop row c s (p :: rest) = evalLoop row c s [p] := by
  rw [evalLoop, evalLoop]
  rw [prayerWindowMatch] at h
  rcases Bool.and_eq_true_iff.mp h with ⟨hk, h⟩
  rw [hk, if_pos rfl, if_pos rfl]
  cases hd : prayerDiff? row c p with
  | none => rw [hd] at h; exact absurd h (by simp)
  | some diff =>
    dsimp only
    rw [hd] at h
    dsimp only at h
    by_cases h1 : p = "Syuruk"
    · simp only [if_pos h1, if_pos (show 270 ≤ diff ∧ diff ≤ 330 by simpa [h1] using h)]
    · simp only [if_neg h1]
      by_cases h2 : p = "Imsak"
      · simp only [if_pos h2, if_pos (show 270 ≤ diff ∧ diff ≤ 330 by simpa [h1, h2] using h)]
      · simp only [if_neg h2]
        by_cases h3 : azanPrayerNames.contains p
        · simp only [if_pos (show azanPrayerNames.contains p = true from h3)]
          simp only [h1, h2, h3, if_false, if_true, Bool.or_eq_true,
            decide_eq_true_eq] at h
          by_cases w1 : 570 ≤ diff ∧ diff ≤ 630
          · simp only [if_pos w1]
          · simp only [if_neg w1]
            by_cases w2 : 270 ≤ diff ∧ diff ≤ 330
            · simp only [if_pos w2]
            · simp only [if_neg w2]
              by_cases w3 : -1 ≤ diff ∧ diff ≤ 1
              · simp only [if_pos w3]
              · simp only [if_neg w3]
                by_cases w4 : -300 ≤ diff ∧ diff ≤ -240
                · simp only [if_pos w4]
                · simp only [if_neg w4]
                  by_cases w5 : -1200 ≤ diff ∧ diff ≤ -1140
                  · simp only [if_pos w5]
                  · tauto
        · rw [if_neg h1, if_neg h2, if_neg h3] at h
          exact absurd h (by simp)

theorem evalLoop_append (row : Row) (c : Clock) (s : EngineState)
    (l1 l2 : List String) (h : ∀ q ∈ l1, prayerWindowMatch row c q = false) :
    evalLoop row c s (l1 ++ l2) = evalLoop row c s l2 := by
  induction l1 with
  | nil => rfl
  | cons q l1' ih =>
    rw [List.cons_append, evalLoop_skip row c s q _ (h q (by simp))]
    exact ih (fun q' hq' => h q' (by simp [hq']))

theorem raiseAlert_triggered_mono (s : EngineState) (key atype : String)
    (dur : Option Int) (k : String) (hk : k ∈ s.triggered) :
    k ∈ (raiseAlert s key atype dur).1.triggered := by
  rw [raiseAlert]
  by_cases hc : s.triggered.contains key
  · rw [if_pos hc]; exact hk
  · rw [if_neg hc]; exact List.mem_cons_of_mem _ hk

theorem evalLoop_triggered_mono (row : Row) (c : Clock) (l : List String)
    (s : EngineState) (k : String) (hk : k ∈ s.triggered) :
    k ∈ (evalLoop row c s l).1.triggered := by
  induction l generalizing s with
  | nil => exact hk
  | cons p rest ih =>
    rw [evalLoop]
    by_cases hkey : rowHasKey row p
    · rw [if_pos hkey]
      cases hd : prayerDiff? row c p with
      | none => exact ih s hk
      | some diff =>
        dsimp only
        by_cases h1 : p = "Syuruk"
        · rw [if_pos h1]
          by_cases w : 270 ≤ diff ∧ diff ≤ 330
          · rw [if_pos w]; exact raiseAlert_triggered_mono s _ _ _ k hk
          · rw [if_neg w]; exact ih s hk
        · rw [if_neg h1]
          by_cases h2 : p = "Imsak"
          · rw [if_pos h2]
            by_cases w : 270 ≤ diff ∧ diff ≤ 330
            · rw [if_pos w]; exact hk
            · rw [if_neg w]; exact ih s hk
          · rw [if_neg h2]
            by_cases h3 : azanPrayerNames.contains p
            · rw [if_pos h3]
              by_cases w1 : 570 ≤ diff ∧ diff ≤ 630
              · rw [if_pos w1]; exact raiseAlert_triggered_mono s _ _ _ k hk
              · rw [if_neg w1]
                by_cases w2 : 270 ≤ diff ∧ diff ≤ 330
                · rw [if_pos w2]; exact raiseAlert_triggered_mono s _ _ _ k hk
                · rw [if_neg w2]
                  by_cases w3 : -1 ≤ diff ∧ diff ≤ 1
                  · rw [if_pos w3]; exact raiseAlert_triggered_mono s _ _ _ k hk
                  · rw [if_neg w3]
                    by_cases w4 : -300 ≤ diff ∧ diff ≤ -240
                    · rw [if_pos w4]; exact raiseAlert_triggered_mono s _ _ _ k hk
                    · rw [if_neg w4]
                      by_cases w5 : -1200 ≤ diff ∧ diff ≤ -1140
                      · rw [if_pos w5]; exact raiseAlert_triggered_mono s _ _ _ k hk
                      · rw [if_neg w5]; exact ih s hk
            · rw [if_neg h3]; exact ih s hk
    · rw [if_neg hkey]; exact ih s hk

theorem checkAlertsRow_triggered_mono (row : Row) (c : Clock) (s : EngineState)
    (k : String) (hk : k ∈ s.triggered) :
    k ∈ (checkAlertsRow row c s).1.triggered := by
  rw [checkAlertsRow]
  by_cases ha : s.alert_active && optStrTruthy s.current_alert
  · rw [if_pos ha]
    by_cases hl : 2 ≤ (splitChar '_' (s.current_alert.getD "").data).length
    · rw [if_pos hl]
      dsimp only
      cases hd : prayerDiff? row c ⟨(splitChar '_' (s.current_alert.getD "").data).getD 0 []⟩ with
      | some diff =>
        dsimp only
        by_cases hw : -30 ≤ diff ∧ diff ≤ 30 ∧
            (splitChar '_' (s.current_alert.getD "").data).getD 1 [] ≠ "azan".data
        · rw [if_pos hw]; exact evalLoop_triggered_mono row c prayerNames _ k hk
        · rw [if_neg hw]; exact hk
      | none => exact evalLoop_triggered_mono row c prayerNames s k hk
    · rw [if_neg hl]; exact hk
  · rw [if_neg ha]; exact evalLoop_triggered_mono row c prayerNames s k hk

theorem checkAlerts_triggered_mono (dm : DataM) (nowDate : String) (c : Clock)
    (s : EngineState) (k : String) (hk : k ∈ s.triggered) :
    k ∈ (checkAlerts dm nowDate c s).1.triggered := by
  rw [checkAlerts]
  by_cases he : dm.prayer_times.isEmpty
  · rw [if_pos he]; exact hk
  · rw [if_neg he]
    cases hr : get_prayer_times_for_date dm nowDate nowDate with
    | none => exact hk
    | some row =>
      dsimp only
      by_cases hre : row.isEmpty
      · rw [if_pos hre]; exact hk
      · rw [if_neg hre]; exact checkAlertsRow_triggered_mono row c s k hk

/-! ### `pyStrip` is idempotent -/

theorem dropWhile_dropWhile_ws (l : List Char) :
    (l.dropWhile isWsChar).dropWhile isWsChar = l.dropWhile isWsChar := by
  induction l with
  | nil => rfl
  | cons c t ih =>
    by_cases h : isWsChar c <;> simp [List.dropWhile_cons, h, ih]

theorem stripTrailing_head (c : Char) (t : List Char) :
    stripTrailing (c :: t) = [] ∨ ∃ r, stripTrailing (c :: t) = c :: r := by
  rw [stripTrailing]
  cases h : stripTrailing t with
  | nil =>
    by_cases hw : isWsChar c
    · left; simp [hw]
    · right; exact ⟨[], by simp [hw]⟩
  | cons a r => right; exact ⟨a :: r, rfl⟩

theorem stripTrailing_idem (l : List Char) :
    stripTrailing (stripTrailing l) = stripTrailing l := by
  induction l with
  | nil => rfl
  | cons c t ih =>
    rw [stripTrailing]
    cases h : stripTrailing t with
    | nil =>
      by_cases hw : isWsChar c
      · simp [hw, stripTrailing]
      · simp [hw, stripTrailing]
    | cons a r =>
      dsimp only
      rw [stripTrailing]
      rw [h] at ih
      rw [ih]

theorem dropWhile_head_not_ws (l : List Char) (c : Char) (t : List Char)
    (h : l.dropWhile isWsChar = c :: t) : isWsChar c = false := by
  induction l with
  | nil => simp at h
  | cons a l' ih =>
    rw [List.dropWhile_cons] at h
    by_cases ha : isWsChar a
    · rw [if_pos (by simpa using ha)] at h; exact ih h
    · rw [if_neg (by simpa using ha)] at h
      cases h; simpa using ha

theorem pyStripList_idem (l : List Char) :
    pyStripList (pyStripList l) = pyStripList l := by
  rw [pyStripList, pyStripList]
  rcases hm : (l.dropWhile isWsChar) with _ | ⟨c, t⟩
  · simp [stripTrailing, List.dropWhile_nil]
  · have hcw : isWsChar c = false := dropWhile_head_not_ws l c t hm
    rcases stripTrailing_head c t with h0 | ⟨r, hr⟩
    · rw [h0]; simp [stripTrailing, List.dropWhile_nil]
    · rw [hr, List.dropWhile_cons, if_neg (by simp [hcw])]
      rw [← hr, stripTrailing_idem]

theorem pyStrip_idem (s : String) : pyStrip (pyStrip s) = pyStrip s := by
  unfold pyStrip
  exact congrArg String.mk (pyStripList_idem s.data)

/-! ### Further structural lemmas about `check_alerts` -/

theorem checkAlertsRow_idle (row : Row) (c : Clock) (s : EngineState)
    (ha : s.alert_active = false) :
    checkAlertsRow row c s = evalLoop row c s prayerNames := by
  rw [checkAlertsRow, ha]
  rfl

theorem prayerDiff_some_hasKey (row : Row) (c : Clock) (p : String) (d : Int)
    (h : prayerDiff? row c p = some d) : rowHasKey row p = true := by
  by_contra hk
  rw [rowHasKey] at hk
  have hnone : row.find? (fun pr => pr.1 = p) = none :=
    Option.not_isSome_iff_eq_none.mp hk
  rw [prayerDiff?, rowGetD, rowGet?, hnone] at h
  simp [convert_12h_to_24h] at h

theorem splitChar_ne_nil (sep : Char) (l : List Char) : splitChar sep l ≠ [] := by
  cases l with
  | nil => simp [splitChar]
  | cons c rest =>
    rw [splitChar]
    by_cases h : c = sep
    · simp [h]
    · rw [if_neg h]
      cases splitChar sep rest <;> simp

theorem splitChar_sep_append (k : List Char) :
    ∀ p : List Char, '_' ∉ p →
      splitChar '_' (p ++ '_' :: k) = p :: splitChar '_' k := by
  intro p
  induction p with
  | nil => intro _; simp [splitChar]
  | cons c p' ih =>
    intro hc
    have hcne : ¬c = '_' := by
      intro h; exact hc (by simp [h])
    rw [List.cons_append, splitChar, if_neg hcne, ih (by intro h; exact hc (by simp [h]))]

theorem splitChar_key (P K : String) (hP : '_' ∉ P.data) :
    splitChar '_' (P ++ "_" ++ K).data = P.data :: splitChar '_' K.data := by
  have : (P ++ "_" ++ K).data = P.data ++ '_' :: K.data := by
    simp [String.data_append]
  rw [this, splitChar_sep_append K.data P.data hP]

theorem prayerNames_no_underscore : ∀ p ∈ prayerNames, '_' ∉ p.data := by decide

/-- The override block of `check_alerts` for a well-formed active key
`P_K`: the tick is blocked unless the active alert's prayer has
`diff_seconds` within ±30 s and the active kind is not azan, in which case
the alert is force-dismissed and the evaluation loop runs in the same
tick. -/
theorem override_core (row : Row) (c : Clock) (s : EngineState) (P K : String)
    (diff : Int) (hP : '_' ∉ P.data) (hK : K ∈ kindSuffixes)
    (ha : s.alert_active = true) (hca : s.current_alert = some (P ++ "_" ++ K))
    (hd : prayerDiff? row c P = some diff) :
    checkAlertsRow row c s =
      if -30 ≤ diff ∧ diff ≤ 30 ∧ K ≠ "azan" then
        evalLoop row c (hideAlertM s) prayerNames
      else (s, none) := by
  have hne : (P ++ "_" ++ K) ≠ "" := by
    intro h
    have : (P ++ "_" ++ K).data = [] := by rw [h]
    rw [show (P ++ "_" ++ K).data = P.data ++ '_' :: K.data by simp [String.data_append]] at this
    simp at this
  rw [checkAlertsRow, ha, hca]
  have htruthy : optStrTruthy (some (P ++ "_" ++ K)) = true := by
    simp [optStrTruthy, hne]
  rw [htruthy]
  simp only [Bool.and_self, if_true]
  have hgd : (some (P ++ "_" ++ K)).getD "" = P ++ "_" ++ K := rfl
  rw [hgd, splitChar_key P K hP]
  have hlen : 2 ≤ (P.data :: splitChar '_' K.data).length := by
    have := splitChar_ne_nil '_' K.data
    cases hsk : splitChar '_' K.data with
    | nil => exact absurd hsk this
    | cons a r => simp
  rw [if_pos hlen]
  dsimp only
  have hp0 : (P.data :: splitChar '_' K.data).getD 0 [] = P.data := rfl
  rw [hp0]
  have heta : (⟨P.data⟩ : String) = P := rfl
  rw [heta, hd]
  dsimp only
  have hcond : ((P.data :: splitChar '_' K.data).getD 1 [] ≠ "azan".data) ↔ (K ≠ "azan") := by
    have : (P.data :: splitChar '_' K.data).getD 1 [] = (splitChar '_' K.data).getD 0 [] := rfl
    rw [this]
    fin_cases hK <;> simp <;> decide
  simp only [hcond]

/-- Evaluation of `check_alerts` on `rowZohor` from the idle state, as a
closed chain of window tests on `diff_seconds`. -/
theorem zohorEval (c : Clock) :
    (checkAlertsRow rowZohor c idleState).2 =
      (if 570 ≤ diffZohor c ∧ diffZohor c ≤ 630 then some "Zohor_10min"
       else if 270 ≤ diffZohor c ∧ diffZohor c ≤ 330 then some "Zohor_5min"
       else if -1 ≤ diffZohor c ∧ diffZohor c ≤ 1 then some "Zohor_azan"
       else if -300 ≤ diffZohor c ∧ diffZohor c ≤ -240 then some "Zohor_iqamah"
       else if -1200 ≤ diffZohor c ∧ diffZohor c ≤ -1140 then some "Zohor_prayer_time"
       else none) := by
  rw [checkAlertsRow_idle rowZohor c idleState rfl]
  rw [show prayerNames = ["Imsak", "Subuh", "Syuruk"] ++ "Zohor" :: ["Asar", "Maghrib", "Isyak"] from rfl]
  rw [evalLoop_append rowZohor c idleState _ _ (by intro q hq; fin_cases hq <;> rfl)]
  rw [evalLoop]
  rw [if_pos (show rowHasKey rowZohor "Zohor" = true from rfl)]
  rw [show prayerDiff? rowZohor c "Zohor" = some (diffZohor c) from rfl]
  dsimp only
  rw [if_neg (show ¬("Zohor" : String) = "Syuruk" by decide),
      if_neg (show ¬("Zohor" : String) = "Imsak" by decide),
      if_pos (show azanPrayerNames.contains "Zohor" = true from rfl)]
  by_cases w1 : 570 ≤ diffZohor c ∧ diffZohor c ≤ 630
  · simp only [if_pos w1]; rfl
  · simp only [if_neg w1]
    by_cases w2 : 270 ≤ diffZohor c ∧ diffZohor c ≤ 330
    · simp only [if_pos w2]; rfl
    · simp only [if_neg w2]
      by_cases w3 : -1 ≤ diffZohor c ∧ diffZohor c ≤ 1
      · simp only [if_pos w3]; rfl
      · simp only [if_neg w3]
        by_cases w4 : -300 ≤ diffZohor c ∧ diffZohor c ≤ -240
        · simp only [if_pos w4]; rfl
        · simp only [if_neg w4]
          by_cases w5 : -1200 ≤ diffZohor c ∧ diffZohor c ≤ -1140
          · simp only [if_pos w5]; rfl
          · simp only [if_neg w5]; rfl

/-! ## Claim C8: `normalize` on 12-hour and 24-hour inputs -/

set_option maxRecDepth 40000 in
set_option maxHeartbeats 4000000 in
/-- C8: `convert_12h_to_24h` maps every valid zero-padded 12-hour AM/PM
string to the 24-hour hour/minute obtained by the manual computation
(`spec24`), in particular `"01:00 PM"` to `"13:00"`; and on every string
accepted as an already-24-hour `"HH:MM"` time (the 12-hour parse fails,
the 24-hour parse succeeds) it returns the trimmed input and is idempotent
on that output. -/
theorem claim_C8_normalize :
    (∀ h, h < 13 → ∀ m, m < 60 → ∀ pm : Bool, 1 ≤ h →
      convert_12h_to_24h (render12 h m pm) = some (fmtHM (spec24 h pm) m)) ∧
    convert_12h_to_24h "01:00 PM" = some "13:00" ∧
    (∀ s : String, parse12 (pyStrip s).data = none →
      (∃ hm, parse24 (pyStrip s).data = some hm) →
      convert_12h_to_24h s = some (pyStrip s) ∧
      convert_12h_to_24h (pyStrip s) = some (pyStrip s)) := by
  refine ⟨by decide, by decide, ?_⟩
  intro s h12 ⟨hm, h24⟩
  have htne : pyStrip s ≠ "" := by
    intro h
    have hd2 : (pyStrip s).data = [] := by rw [h]
    rw [hd2] at h24
    rw [show parse24 ([] : List Char) = none from rfl] at h24
    exact Option.noConfusion h24
  have hsne : s ≠ "" := by
    intro h
    exact htne (by rw [h]; rfl)
  have h1 : convert_12h_to_24h s = some (pyStrip s) := by
    rw [convert_12h_to_24h, if_neg hsne]
    dsimp only
    simp only [h12, h24]
  refine ⟨h1, ?_⟩
  rw [convert_12h_to_24h, if_neg htne]
  dsimp only
  rw [pyStrip_idem]
  simp only [h12, h24]

/-- C8 witness: the general statements applied at `"01:00 PM"` rendered
from `(1, 0, PM)` and at the 24-hour string `" 13:05 "`. -/
theorem claim_C8_normalize_witness :
    convert_12h_to_24h (render12 1 0 true) = some (fmtHM (spec24 1 true) 0) ∧
    convert_12h_to_24h " 13:05 " = some (pyStrip " 13:05 ") ∧
    convert_12h_to_24h (pyStrip " 13:05 ") = some (pyStrip " 13:05 ") := by
  refine ⟨claim_C8_normalize.1 1 (by decide) 0 (by decide) true (by decide), ?_, ?_⟩
  · exact (claim_C8_normalize.2.2 " 13:05 " (by decide) ⟨(13, 5), by decide⟩).1
  · exact (claim_C8_normalize.2.2 " 13:05 " (by decide) ⟨(13, 5), by decide⟩).2

/-! ## Claim C6: malformed time strings are isolated -/

/-- C6: `convert_12h_to_24h` returns `none` on the unparseable `"25:99"`
rather than failing; a prayer whose time does not convert is skipped
without affecting the rest of the evaluation loop; concretely, on a row
whose Subuh field is `"25:99"`, the Zohor reminder still fires in the same
tick. -/
theorem claim_C6_malformed_isolation :
    convert_12h_to_24h "25:99" = none ∧
    (∀ (row : Row) (c : Clock) (s : EngineState) (p : String) (rest : List String),
      prayerDiff? row c p = none →
      evalLoop row c s (p :: rest) = evalLoop row c s rest) ∧
    prayerDiff? rowMalformed ⟨12, 50, 0⟩ "Subuh" = none ∧
    (checkAlertsRow rowMalformed ⟨12, 50, 0⟩ idleState).2 = some "Zohor_10min" := by
  refine ⟨by decide, ?_, by decide, by decide⟩
  intro row c s p rest h
  rw [evalLoop]
  by_cases hk : rowHasKey row p
  · rw [if_pos hk, h]
  · rw [if_neg hk]

/-- C6 witness: the skip equation applied at the malformed Subuh entry. -/
theorem claim_C6_malformed_isolation_witness :
    evalLoop rowMalformed ⟨12, 50, 0⟩ idleState ["Subuh", "Zohor"] =
      evalLoop rowMalformed ⟨12, 50, 0⟩ idleState ["Zohor"] :=
  claim_C6_malformed_isolation.2.1 rowMalformed ⟨12, 50, 0⟩ idleState "Subuh" ["Zohor"]
    (by decide)

/-! ## Claim C4: the window tests -/

/-- C4 counterexample: the claim says every window match is a *half-open*
interval test, but on `rowZohor` both endpoints of the Reminder10 window
match — `diff_seconds = 630` (11:49:30) and `diff_seconds = 570`
(11:50:30) both raise `Zohor_10min` from a fresh state — so the test
includes both endpoints and is not half-open under either orientation. -/
theorem claim_C4_half_open_counterexample :
    prayerDiff? rowZohor ⟨11, 49, 30⟩ "Zohor" = some 630 ∧
    (checkAlertsRow rowZohor ⟨11, 49, 30⟩ idleState).2 = some "Zohor_10min" ∧
    prayerDiff? rowZohor ⟨11, 50, 30⟩ "Zohor" = some 570 ∧
    (checkAlertsRow rowZohor ⟨11, 50, 30⟩ idleState).2 = some "Zohor_10min" := by
  decide

/-- C4 (amended): every per-prayer window match is a *closed* interval
test on `diff_seconds` = prayer instant − now, with both endpoints
included, over the windows `[570, 630]` for Reminder10, `[270, 330]` for
Reminder5, `[-1, 1]` for Azan, `[-300, -240]` for Iqamah and
`[-1200, -1140]` for PrayerTimeHold: from a fresh idle state on
`rowZohor`, the alert of each kind is raised at exactly the ticks whose
`diff_seconds` lies in that closed window. -/
theorem claim_C4_closed_windows (h m s : Nat) :
    prayerDiff? rowZohor ⟨h, m, s⟩ "Zohor" = some (diffZohor ⟨h, m, s⟩) ∧
    ((checkAlertsRow rowZohor ⟨h, m, s⟩ idleState).2 = some "Zohor_10min" ↔
      (570 ≤ diffZohor ⟨h, m, s⟩ ∧ diffZohor ⟨h, m, s⟩ ≤ 630)) ∧
    ((checkAlertsRow rowZohor ⟨h, m, s⟩ idleState).2 = some "Zohor_5min" ↔
      (270 ≤ diffZohor ⟨h, m, s⟩ ∧ diffZohor ⟨h, m, s⟩ ≤ 330)) ∧
    ((checkAlertsRow rowZohor ⟨h, m, s⟩ idleState).2 = some "Zohor_azan" ↔
      (-1 ≤ diffZohor ⟨h, m, s⟩ ∧ diffZohor ⟨h, m, s⟩ ≤ 1)) ∧
    ((checkAlertsRow rowZohor ⟨h, m, s⟩ idleState).2 = some "Zohor_iqamah" ↔
      (-300 ≤ diffZohor ⟨h, m, s⟩ ∧ diffZohor ⟨h, m, s⟩ ≤ -240)) ∧
    ((checkAlertsRow rowZohor ⟨h, m, s⟩ idleState).2 = some "Zohor_prayer_time" ↔
      (-1200 ≤ diffZohor ⟨h, m, s⟩ ∧ diffZohor ⟨h, m, s⟩ ≤ -1140)) := by
  refine ⟨rfl, ?_, ?_, ?_, ?_, ?_⟩ <;>
    rw [zohorEval ⟨h, m, s⟩] <;>
    split_ifs <;>
    simp_all <;>
    omega

/-! ## Claim C1: per-day dedupe across a simulated day -/

set_option maxRecDepth 40000 in
set_option maxHeartbeats 4000000 in
/-- C1 (code bug): on a row with `Imsak = "05:50"`, a simulated
one-second sweep across the reminder window raises the Imsak reminder
*twice* (once when the window is entered and again as soon as the first
30-second reminder expires), and the dedupe key `"Imsak_5min"` is never
recorded in the per-day dedupe set: the Imsak branch of `check_alerts`
neither consults nor marks `triggered_alerts`, unlike every other branch,
so the claimed once-per-day dedupe fails for the Imsak reminder. -/
theorem claim_C1_imsak_dedupe_bug :
    ((sweep dmImsak "01/01/2025" 20669 40 idleState).2.count "Imsak_5min") = 2 ∧
    "Imsak_5min" ∉ (sweep dmImsak "01/01/2025" 20669 40 idleState).1.triggered := by
  decide

/-! ## Claim C3: fixed iteration order, first match wins, no-op ticks -/

/-- C3: the evaluation loop examines the prayers in the fixed order
Imsak, Subuh, Syuruk, Zohor, Asar, Maghrib, Isyak; on an idle tick, if no
prayer's window matches the session state is left unchanged and nothing is
raised; and if `p` is the first prayer in that order whose window matches,
evaluation stops at `p`: the tick's result is exactly the result of
evaluating `p` alone (at most one alert is raised per tick, by the shape
of the result). -/
theorem claim_C3_iteration_order :
    prayerNames = ["Imsak", "Subuh", "Syuruk", "Zohor", "Asar", "Maghrib", "Isyak"] ∧
    (∀ (row : Row) (c : Clock) (s : EngineState), s.alert_active = false →
      (∀ p ∈ prayerNames, prayerWindowMatch row c p = false) →
      checkAlertsRow row c s = (s, none)) ∧
    (∀ (row : Row) (c : Clock) (s : EngineState) (l1 : List String) (p : String)
        (l2 : List String), s.alert_active = false →
      prayerNames = l1 ++ p :: l2 →
      (∀ q ∈ l1, prayerWindowMatch row c q = false) →
      prayerWindowMatch row c p = true →
      checkAlertsRow row c s = evalLoop row c s [p]) := by
  refine ⟨rfl, ?_, ?_⟩
  · intro row c s ha hnone
    rw [checkAlertsRow_idle row c s ha]
    rw [show prayerNames = prayerNames ++ [] by simp]
    rw [evalLoop_append row c s prayerNames [] hnone]
    rfl
  · intro row c s l1 p l2 ha hsplit hl1 hp
    rw [checkAlertsRow_idle row c s ha, hsplit,
      evalLoop_append row c s l1 (p :: l2) hl1,
      evalLoop_hit row c s p l2 hp]

/-- C3 witness: on `rowZohor` at 12:30:00 no window matches and the tick
is a no-op; at 11:50:00 the first matching prayer is Zohor, and the tick
equals evaluating Zohor alone. -/
theorem claim_C3_iteration_order_witness :
    checkAlertsRow rowZohor ⟨12, 30, 0⟩ idleState = (idleState, none) ∧
    checkAlertsRow rowZohor ⟨11, 50, 0⟩ idleState =
      evalLoop rowZohor ⟨11, 50, 0⟩ idleState ["Zohor"] := by
  constructor
  · exact claim_C3_iteration_order.2.1 rowZohor ⟨12, 30, 0⟩ idleState rfl
      (by intro p hp; fin_cases hp <;> decide)
  · exact claim_C3_iteration_order.2.2 rowZohor ⟨11, 50, 0⟩ idleState
      ["Imsak", "Subuh", "Syuruk"] "Zohor" ["Asar", "Maghrib", "Isyak"] rfl rfl
      (by intro q hq; fin_cases hq <;> decide) (by decide)

/-! ## Claim C2: behaviour while an alert is active -/

/-- C2 counterexample: with the (reachable) 28-minute Syuruk reminder
active and the clock at 07:09:30 — `diff_seconds = 30` for Syuruk, so the
azan window `[-1, 1]` does *not* match — the tick is not blocked: the
active alert is force-dismissed (`alert_active` drops to `false`, the
current key is cleared) and no azan alert is raised in that tick,
contradicting the claim that evaluation is blocked with the sole exception
of an azan window match that raises the azan alert in the same tick. -/
theorem claim_C2_preemption_counterexample :
    activeSyurukState.alert_active = true ∧
    prayerDiff? rowSyuruk ⟨7, 9, 30⟩ "Syuruk" = some 30 ∧
    ¬(-1 ≤ (30 : Int) ∧ (30 : Int) ≤ 1) ∧
    checkAlertsRow rowSyuruk ⟨7, 9, 30⟩ activeSyurukState =
      (⟨false, none, ["Syuruk_5min"], false, 1400⟩, none) := by
  decide

/-- C2 (amended): while an alert with key `P_K` is active, the tick
returns with nothing changed unless `P`'s `diff_seconds` lies in the
±30-second pre-azan override window *and* `K` is not azan; in that case
the active alert is force-dismissed and the evaluation loop runs within
the same tick — in particular, when `P`'s azan window `[-1, 1]` matches,
no earlier prayer's window matches and `P`'s azan key is unfired, the azan
alert for `P` is raised in that same tick. -/
theorem claim_C2_preemption :
    (∀ (row : Row) (c : Clock) (s : EngineState) (P K : String) (diff : Int),
      P ∈ prayerNames → K ∈ kindSuffixes →
      s.alert_active = true → s.current_alert = some (P ++ "_" ++ K) →
      prayerDiff? row c P = some diff →
      ¬(-30 ≤ diff ∧ diff ≤ 30 ∧ K ≠ "azan") →
      checkAlertsRow row c s = (s, none)) ∧
    (∀ (row : Row) (c : Clock) (s : EngineState) (P K : String) (diff : Int),
      P ∈ prayerNames → K ∈ kindSuffixes →
      s.alert_active = true → s.current_alert = some (P ++ "_" ++ K) →
      prayerDiff? row c P = some diff →
      -30 ≤ diff → diff ≤ 30 → K ≠ "azan" →
      checkAlertsRow row c s = evalLoop row c (hideAlertM s) prayerNames) ∧
    (∀ (row : Row) (c : Clock) (s : EngineState) (P K : String) (diff : Int)
        (l1 l2 : List String),
      P ∈ azanPrayerNames → K ∈ kindSuffixes →
      s.alert_active = true → s.current_alert = some (P ++ "_" ++ K) →
      prayerDiff? row c P = some diff →
      -1 ≤ diff → diff ≤ 1 → K ≠ "azan" →
      prayerNames = l1 ++ P :: l2 →
      (∀ q ∈ l1, prayerWindowMatch row c q = false) →
      s.triggered.contains (P ++ "_azan") = false →
      (checkAlertsRow row c s).2 = some (P ++ "_azan") ∧
      (checkAlertsRow row c s).1.alert_active = true ∧
      (checkAlertsRow row c s).1.current_alert = some (P ++ "_azan")) := by
  have hazan_sub : ∀ P ∈ azanPrayerNames, P ∈ prayerNames := by decide
  refine ⟨?_, ?_, ?_⟩
  · intro row c s P K diff hPmem hK ha hca hd hneg
    rw [override_core row c s P K diff (prayerNames_no_underscore P hPmem) hK ha hca hd]
    rw [if_neg hneg]
  · intro row c s P K diff hPmem hK ha hca hd h30a h30b hKa
    rw [override_core row c s P K diff (prayerNames_no_underscore P hPmem) hK ha hca hd]
    rw [if_pos ⟨h30a, h30b, hKa⟩]
  · intro row c s P K diff l1 l2 hPaz hK ha hca hd h1a h1b hKa hsplit hl1 hfresh
    have hPmem : P ∈ prayerNames := hazan_sub P hPaz
    have heq : checkAlertsRow row c s = evalLoop row c (hideAlertM s) prayerNames := by
      rw [override_core row c s P K diff (prayerNames_no_underscore P hPmem) hK ha hca hd]
      rw [if_pos ⟨by omega, by omega, hKa⟩]
    rw [heq, hsplit, evalLoop_append row c (hideAlertM s) l1 (P :: l2) hl1]
    have hkey : rowHasKey row P = true := prayerDiff_some_hasKey row c P diff hd
    rw [evalLoop, if_pos hkey, hd]
    dsimp only
    have hPS : ¬P = "Syuruk" := by fin_cases hPaz <;> decide
    have hPI : ¬P = "Imsak" := by fin_cases hPaz <;> decide
    have hPc : azanPrayerNames.contains P = true := by fin_cases hPaz <;> decide
    rw [if_neg hPS, if_neg hPI, if_pos hPc,
      if_neg (show ¬(570 ≤ diff ∧ diff ≤ 630) by omega),
      if_neg (show ¬(270 ≤ diff ∧ diff ≤ 330) by omega),
      if_pos (show -1 ≤ diff ∧ diff ≤ 1 from ⟨h1a, h1b⟩)]
    rw [raiseAlert]
    have : (hideAlertM s).triggered.contains (P ++ "_azan") = false := hfresh
    rw [if_neg (by rw [this]; exact Bool.false_ne_true)]
    exact ⟨rfl, rfl, rfl⟩

/-- C2 witness: a Zohor 5-minute reminder forced active at Zohor's azan
instant is pre-empted: the azan alert is raised within the same tick. -/
theorem claim_C2_preemption_witness :
    (checkAlertsRow rowZohor ⟨12, 0, 0⟩
        ⟨true, some ("Zohor" ++ "_" ++ "5min"), ["Zohor_10min", "Zohor_5min"], true, 10⟩).2 =
      some ("Zohor" ++ "_azan") ∧
    (checkAlertsRow rowZohor ⟨12, 0, 0⟩
        ⟨true, some ("Zohor" ++ "_" ++ "5min"), ["Zohor_10min", "Zohor_5min"], true, 10⟩).1.current_alert =
      some ("Zohor" ++ "_azan") := by
  have h := claim_C2_preemption.2.2 rowZohor ⟨12, 0, 0⟩
    ⟨true, some ("Zohor" ++ "_" ++ "5min"), ["Zohor_10min", "Zohor_5min"], true, 10⟩
    "Zohor" "5min" 0 ["Imsak", "Subuh", "Syuruk"] ["Asar", "Maghrib", "Isyak"]
    (by decide) (by decide) rfl rfl (by decide) (by decide) (by decide) (by decide)
    rfl (by intro q hq; fin_cases hq <;> decide) (by decide)
  exact ⟨h.1, h.2.2⟩

/-! ## Claim C5: the midnight reset -/

theorem updateTimeAlerts_triggered_midnight (dm : DataM) (nowDate : String)
    (c : Clock) (s : EngineState) (hm : c.h = 0 ∧ c.m = 0 ∧ c.s = 0) :
    (updateTimeAlerts dm nowDate c s).1.triggered = [] := by
  rw [updateTimeAlerts]
  dsimp only
  rw [if_pos hm]

theorem updateTimeAlerts_triggered_other (dm : DataM) (nowDate : String)
    (c : Clock) (s : EngineState) (hm : ¬(c.h = 0 ∧ c.m = 0 ∧ c.s = 0)) :
    (updateTimeAlerts dm nowDate c s).1.triggered =
      (checkAlerts dm nowDate c s).1.triggered := by
  rw [updateTimeAlerts]
  dsimp only
  rw [if_neg hm]
  split_ifs <;> rfl

/-- C5: within a tick of `update_time`, the per-day dedupe set is cleared
exactly when the observed wall-clock time is `00:00:00`; at every other
observed time the tick's dedupe set is exactly what `check_alerts`
produced, which in particular never loses a previously fired key. -/
theorem claim_C5_midnight_reset :
    ∀ (dm : DataM) (nowDate : String) (c : Clock) (s : EngineState),
      ((c.h = 0 ∧ c.m = 0 ∧ c.s = 0) →
        (updateTimeAlerts dm nowDate c s).1.triggered = []) ∧
      (¬(c.h = 0 ∧ c.m = 0 ∧ c.s = 0) →
        (updateTimeAlerts dm nowDate c s).1.triggered =
          (checkAlerts dm nowDate c s).1.triggered) ∧
      (¬(c.h = 0 ∧ c.m = 0 ∧ c.s = 0) →
        ∀ k, k ∈ s.triggered → k ∈ (updateTimeAlerts dm nowDate c s).1.triggered) := by
  intro dm nowDate c s
  refine ⟨updateTimeAlerts_triggered_midnight dm nowDate c s,
    updateTimeAlerts_triggered_other dm nowDate c s, fun hm k hk => ?_⟩
  rw [updateTimeAlerts_triggered_other dm nowDate c s hm]
  exact checkAlerts_triggered_mono dm nowDate c s k hk

/-- C5 witness: at 00:00:00 the dedupe set is cleared; at 00:00:01 it is
what `check_alerts` produced and the old key is still present. -/
theorem claim_C5_midnight_reset_witness :
    (updateTimeAlerts dmImsak "01/01/2025" ⟨0, 0, 0⟩
      ⟨false, none, ["Zohor_azan"], false, 0⟩).1.triggered = [] ∧
    (updateTimeAlerts dmImsak "01/01/2025" ⟨0, 0, 1⟩
        ⟨false, none, ["Zohor_azan"], false, 0⟩).1.triggered =
      (checkAlerts dmImsak "01/01/2025" ⟨0, 0, 1⟩
        ⟨false, none, ["Zohor_azan"], false, 0⟩).1.triggered ∧
    "Zohor_azan" ∈ (updateTimeAlerts dmImsak "01/01/2025" ⟨0, 0, 1⟩
      ⟨false, none, ["Zohor_azan"], false, 0⟩).1.triggered := by
  refine ⟨(claim_C5_midnight_reset dmImsak "01/01/2025" ⟨0, 0, 0⟩ _).1 (by decide),
    (claim_C5_midnight_reset dmImsak "01/01/2025" ⟨0, 0, 1⟩ _).2.1 (by decide),
    (claim_C5_midnight_reset dmImsak "01/01/2025" ⟨0, 0, 1⟩ _).2.2 (by decide)
      "Zohor_azan" (by decide)⟩

/-! ## Claim C7: the empty-schedule / missing-row fallback -/

/-- C7: when no schedule row matches today's date (in particular with an
empty schedule), the store's query for today yields the synthetic fallback
row; every prayer field of that placeholder is `"N/A"`; an idle tick
evaluated on the placeholder raises nothing and leaves the state
unchanged; and a query for any other absent date yields `None`. -/
theorem claim_C7_fallback :
    (∀ (dm : DataM) (nowDate : String),
      (∀ r ∈ dm.prayer_times, rowGet? r "Tarikh Miladi" ≠ some nowDate) →
      get_prayer_times_for_date dm nowDate nowDate = some dm.fallback) ∧
    (∀ d hj wd p, p ∈ prayerNames →
      rowGetD (createFallbackData d hj wd) p "" = "N/A") ∧
    (∀ d hj wd (c : Clock) (s : EngineState), s.alert_active = false →
      checkAlertsRow (createFallbackData d hj wd) c s = (s, none)) ∧
    (∀ (dm : DataM) (nowDate dateStr : String), dateStr ≠ nowDate →
      (∀ r ∈ dm.prayer_times, rowGet? r "Tarikh Miladi" ≠ some dateStr) →
      get_prayer_times_for_date dm nowDate dateStr = none) := by
  refine ⟨?_, ?_, ?_, ?_⟩
  · intro dm nowDate h
    rw [get_prayer_times_for_date]
    have hfind : dm.prayer_times.find?
        (fun r => rowGet? r "Tarikh Miladi" == some nowDate) = none := by
      rw [List.find?_eq_none]
      intro r hr
      simpa using h r hr
    rw [hfind]
    dsimp only
    rw [if_pos rfl]
  · intro d hj wd p hp
    fin_cases hp <;> rfl
  · intro d hj wd c s ha
    rw [checkAlertsRow_idle _ c s ha]
    rw [show prayerNames = prayerNames ++ [] by simp]
    rw [evalLoop_append _ c s prayerNames [] (by intro q hq; fin_cases hq <;> rfl)]
    rfl
  · intro dm nowDate dateStr hne h
    rw [get_prayer_times_for_date]
    have hfind : dm.prayer_times.find?
        (fun r => rowGet? r "Tarikh Miladi" == some dateStr) = none := by
      rw [List.find?_eq_none]
      intro r hr
      simpa using h r hr
    rw [hfind]
    dsimp only
    rw [if_neg hne]

/-- C7 witness: with an empty schedule, the query for today yields the
fallback row, its Zohor field is `"N/A"`, the idle tick on the placeholder
is a no-op, and a query for another date yields `None`. -/
theorem claim_C7_fallback_witness :
    get_prayer_times_for_date dmEmpty "02/01/2025" "02/01/2025" = some dmEmpty.fallback ∧
    rowGetD (createFallbackData "02/01/2025" "1 Rejab" "Khamis") "Zohor" "" = "N/A" ∧
    checkAlertsRow (createFallbackData "02/01/2025" "1 Rejab" "Khamis") ⟨12, 0, 0⟩
      idleState = (idleState, none) ∧
    get_prayer_times_for_date dmEmpty "02/01/2025" "03/01/2025" = none := by
  refine ⟨claim_C7_fallback.1 dmEmpty "02/01/2025" (by simp [dmEmpty]),
    claim_C7_fallback.2.1 "02/01/2025" "1 Rejab" "Khamis" "Zohor" (by decide),
    claim_C7_fallback.2.2.1 "02/01/2025" "1 Rejab" "Khamis" ⟨12, 0, 0⟩ idleState rfl,
    claim_C7_fallback.2.2.2 dmEmpty "02/01/2025" "03/01/2025" (by decide)
      (by simp [dmEmpty])⟩

/-! ## Claim C9: ingestion rejection on a missing required column -/

theorem uploadCSVRows_error : ∀ rows : List Row,
    (∃ r ∈ rows, ∃ col ∈ requiredColumns, rowHasKey r col = false) →
    ∃ col ∈ requiredColumns, (∃ r ∈ rows, rowHasKey r col = false) ∧
      uploadCSVRows rows = Except.error ("Missing required column: " ++ col) := by
  intro rows
  induction rows with
  | nil =>
    intro hex
    obtain ⟨r, hr, _⟩ := hex
    exact absurd hr (List.not_mem_nil r)
  | cons r rest ih =>
    intro hex
    cases hv : firstMissingColumn r with
    | some col =>
      have hcolmem : col ∈ requiredColumns := List.mem_of_find?_eq_some hv
      have hcolkey : rowHasKey r col = false := by
        have := List.find?_some hv
        simpa using this
      exact ⟨col, hcolmem, ⟨r, by simp, hcolkey⟩, by rw [uploadCSVRows, hv]⟩
    | none =>
      have hall : ∀ col ∈ requiredColumns, rowHasKey r col = true := by
        intro col hcol
        have := List.find?_eq_none.mp hv col hcol
        simpa using this
      have hex' : ∃ r' ∈ rest, ∃ col ∈ requiredColumns, rowHasKey r' col = false := by
        obtain ⟨r', hr', col, hcol, hkey⟩ := hex
        rcases List.mem_cons.mp hr' with rfl | hmem
        · rw [hall col hcol] at hkey
          cases hkey
        · exact ⟨r', hmem, col, hcol, hkey⟩
      obtain ⟨col, hcolmem, ⟨r', hr', hkey⟩, herr⟩ := ih hex'
      refine ⟨col, hcolmem, ⟨r', by simp [hr'], hkey⟩, ?_⟩
      rw [uploadCSVRows, hv, herr]

/-- C9: if any row of an ingested batch is missing a required column, the
whole ingestion is rejected with an error naming a column that is indeed
missing, and the data manager's in-memory schedule is left unchanged by
the failed ingestion. -/
theorem claim_C9_ingestion_rejection :
    ∀ rows pt : List Row,
      (∃ r ∈ rows, ∃ col ∈ requiredColumns, rowHasKey r col = false) →
      (∃ col ∈ requiredColumns, (∃ r ∈ rows, rowHasKey r col = false) ∧
        uploadCSVRows rows = Except.error ("Missing required column: " ++ col)) ∧
      uploadResultTimes rows pt = pt := by
  intro rows pt hex
  have h := uploadCSVRows_error rows hex
  refine ⟨h, ?_⟩
  obtain ⟨col, _, _, herr⟩ := h
  rw [uploadResultTimes, herr]

/-- C9 witness: a batch whose row is missing `"Tarikh Hijri"` is rejected
with an error naming a missing column and leaves the schedule untouched. -/
theorem claim_C9_ingestion_rejection_witness :
    (∃ col ∈ requiredColumns, (∃ r ∈ rowsBad, rowHasKey r col = false) ∧
      uploadCSVRows rowsBad = Except.error ("Missing required column: " ++ col)) ∧
    uploadResultTimes rowsBad ptExisting = ptExisting :=
  claim_C9_ingestion_rejection rowsBad ptExisting (by decide)

/-! ## Claim C10: monotone growth of the dedupe set between resets -/

/-- C10 counterexample: the claim's consequence "a dismissed alert cannot
re-fire within the same day's window" fails for the Imsak reminder: after
the Imsak alert raised at 05:44:30 is dismissed, the very same window
raises it again at 05:44:40, because the Imsak branch never records a
dedupe key. -/
theorem claim_C10_dismissed_refire_counterexample :
    (checkAlertsRow rowImsak ⟨5, 44, 30⟩ idleState).2 = some "Imsak_5min" ∧
    (checkAlertsRow rowImsak ⟨5, 44, 40⟩
      (hideAlertM (checkAlertsRow rowImsak ⟨5, 44, 30⟩ idleState).1)).2 =
        some "Imsak_5min" := by
  decide

/-- C10 (amended): between two midnight resets the dedupe set grows
monotonically — `check_alerts` only ever adds keys, and `show_alert`,
`hide_alert` (dismissal) and `test_alert` leave it unchanged, as does a
whole non-midnight engine tick — so a dismissed alert whose raise marked a
dedupe key (every kind except the Imsak reminder, which never marks one)
cannot re-fire within the same day's window; only the 00:00:00 reset
removes keys. -/
theorem claim_C10_triggered_monotone :
    (∀ (dm : DataM) (nowDate : String) (c : Clock) (s : EngineState) (k : String),
      k ∈ s.triggered → k ∈ (checkAlerts dm nowDate c s).1.triggered) ∧
    (∀ s : EngineState, (hideAlertM s).triggered = s.triggered) ∧
    (∀ (s : EngineState) (atype : String) (dur : Option Int),
      (showAlertM s atype dur).triggered = s.triggered) ∧
    (∀ (s : EngineState) (atype : String), (test_alert s atype).triggered = s.triggered) ∧
    (∀ (dm : DataM) (nowDate : String) (c : Clock) (s : EngineState),
      ¬(c.h = 0 ∧ c.m = 0 ∧ c.s = 0) →
      ∀ k, k ∈ s.triggered → k ∈ (tick dm nowDate c s).1.triggered) := by
  refine ⟨checkAlerts_triggered_mono, fun s => rfl, fun s a d => rfl, ?_, ?_⟩
  · intro s a
    rw [test_alert]
    split_ifs <;> rfl
  · intro dm nowDate c s hm k hk
    have h1 : (integratedTick s).triggered = s.triggered := by
      rw [integratedTick]
      dsimp only
      split_ifs <;> rfl
    rw [tick, updateTimeAlerts_triggered_other dm nowDate c (integratedTick s) hm]
    exact checkAlerts_triggered_mono dm nowDate c (integratedTick s) k (by rw [h1]; exact hk)

/-- C10 witness: a fired key survives a `check_alerts` call and a test
alert leaves the dedupe set unchanged. -/
theorem claim_C10_triggered_monotone_witness :
    "Zohor_azan" ∈ (checkAlerts dmImsak "01/01/2025" ⟨12, 0, 0⟩
      ⟨false, none, ["Zohor_azan"], false, 0⟩).1.triggered ∧
    (test_alert idleState "azan").triggered = idleState.triggered :=
  ⟨claim_C10_triggered_monotone.1 dmImsak "01/01/2025" ⟨12, 0, 0⟩
      ⟨false, none, ["Zohor_azan"], false, 0⟩ "Zohor_azan" (by decide),
    claim_C10_triggered_monotone.2.2.2.1 idleState "azan"⟩

end WaktuSolat
